import Mathlib

/-!
Verification development for the `statecs/realtime-api` repository: a set of
near-duplicate Node/Express proxy servers that relay audio between clients and
the OpenAI realtime API.  The repository contains four server variants:

* `src/server.ts` — HTTP `POST /speech-to-speech`, WAV-encoding relay that also
  injects a fixed `input_text` item before the client audio (here: `serverTs*`).
* `part_001` — HTTP `POST /speech-to-speech`, raw-PCM streaming relay
  (here: `part001*`).
* `part_002` — HTTP `POST /speech-to-speech`, WAV-encoding relay with an API-key
  check (here: `part002*`).
* `part_003` — WebSocket `/audio-stream` relay (here: `ws*`).
* `part_000` — vision/alt-text server; only its `authenticate` middleware is
  modelled (here: `authenticate`).

Machine integers are modelled as `Nat`/`Int`; the Float32 normalisation is
modelled over `Rat` (for the sample values in play the float32 results are
exact).  Node `Buffer`s are modelled as `List Nat` of bytes; where code views a
buffer's backing `ArrayBuffer` (`part_001`), Node's pooling is modelled
explicitly: decoded payloads under `Buffer.poolSize >>> 1` = 4096 bytes are
carved from the shared 8192-byte pool, so their backing buffer is the whole
pool (whose contents also hold unrelated data), while larger payloads get an
exactly-sized `ArrayBuffer`.  Asynchronous waits (the 30 s `Promise.race`) are
modelled by a `RaceOutcome` parameter; success of `realtimeClient.connect()` by
a `connectOk : Bool` parameter.
-/

/-- Value of a base64 alphabet character, `none` for characters outside the
alphabet (Node's base64 decoder skips those, including `=` padding). -/
def b64Val (c : Char) : Option Nat :=
  if Char.ofNat 65 ≤ c ∧ c ≤ Char.ofNat 90 then some (c.toNat - 65)
  else if Char.ofNat 97 ≤ c ∧ c ≤ Char.ofNat 122 then some (c.toNat - 97 + 26)
  else if Char.ofNat 48 ≤ c ∧ c ≤ Char.ofNat 57 then some (c.toNat - 48 + 52)
  else if c = Char.ofNat 43 then some 62
  else if c = Char.ofNat 47 then some 63
  else none

/-- Decode a list of 6-bit base64 values into bytes: groups of four values give
three bytes, a trailing pair gives one byte, a trailing triple two bytes, and a
single leftover value yields nothing. -/
def b64Groups : List Nat → List Nat
  | a :: b :: c :: d :: rest =>
      (a * 4 + b / 16) :: ((b % 16) * 16 + c / 4) :: ((c % 4) * 64 + d) :: b64Groups rest
  | [a, b] => [a * 4 + b / 16]
  | [a, b, c] => [a * 4 + b / 16, (b % 16) * 16 + c / 4]
  | _ => []

/-- Model of Node `Buffer.from(s, 'base64')`: drop non-alphabet characters and
decode the remaining 6-bit groups to bytes. -/
def b64Decode (s : String) : List Nat :=
  b64Groups (s.data.filterMap b64Val)

/-- Reinterpret two bytes as one little-endian signed 16-bit sample. -/
def toInt16 (lo hi : Nat) : Int :=
  let u := lo % 256 + 256 * (hi % 256)
  if u < 32768 then (u : Int) else (u : Int) - 65536

/-- Reinterpret a byte list as little-endian signed 16-bit samples (a trailing
unpaired byte yields nothing, as for a typed-array view of even length). -/
def bytesToInt16 : List Nat → List Int
  | lo :: hi :: rest => toInt16 lo hi :: bytesToInt16 rest
  | _ => []

/-- JS truthiness test for an optional string: `undefined` and `''` are falsy.
Models `!x` on `req.body` fields and on environment variables. -/
def falsy : Option String → Bool
  | none => true
  | some s => s == ""

/-- PCM-to-float normalisation of `src/server.ts` and `part_002`
`sendAudioToClient`: `Float32Array.from(channel, x => x / 32768)`. -/
def float32ChannelData (channel : List Int) : List Rat :=
  channel.map (fun x => (x : Rat) / 32768)

/-- PCM-to-float normalisation of the WebSocket variant (`part_003`
`sendAudioToClient`): `float32Data[i] = audio[i] / 32767`. -/
def float32Data (audio : List Int) : List Rat :=
  audio.map (fun x => (x : Rat) / 32767)

/-- Outbound payload of `part_003`'s `sendAudioToClient`: the normalised
Float32 buffer is sent directly over the WebSocket (no WAV envelope). -/
def sendAudioToClientWs (audio : List Int) : List Rat :=
  float32Data audio

/-- Content items of a `conversation.item.create` message
(`InputTextContentType` / `InputAudioContentType` in `src/server.ts`).
`inputTextBytes` carries the decoded bytes that `part_002` stringifies with
`Buffer.toString('utf-8')` before sending as `input_text`. -/
inductive ContentItem
  | inputText (text : String)
  | inputTextBytes (bytes : List Nat)
  | inputAudio (audio : String) (sampleRate channelCount bitsPerSample : Nat)
deriving DecidableEq

/-- Messages a session sends to the upstream realtime connection. -/
inductive UpMsg
  | itemCreate (content : List ContentItem)
  | appendAudio (samples : List Int)
  | createResponse
deriving DecidableEq

/-- Model of `sendUserMessageContent` (`src/server.ts` and `part_002`): when
the content list is non-empty it sends one `conversation.item.create` with the
content, and it always calls `createResponse()` afterwards. -/
def sendUserMessageContent (sent : List UpMsg) (content : List ContentItem) : List UpMsg :=
  (if content.isEmpty then sent else sent ++ [UpMsg.itemCreate content]) ++ [UpMsg.createResponse]

/-- Body of a `POST /speech-to-speech` request; each field is absent (`none`)
or a string (possibly empty, which JS also treats as missing via `!x`). -/
structure SpeechRequest where
  audio : Option String
  threadId : Option String
  assistantId : Option String
deriving DecidableEq

/-- Outcome of `Promise.race([speech.completed, 30 s timeout])`. -/
inductive RaceOutcome
  | completed
  | timedOut
deriving DecidableEq

/-- Observable outcome of one HTTP `POST /speech-to-speech` handler run:
`status` is the status code the handler itself set (`none` when the response is
left to the event callbacks), `ended` whether the handler ended the response,
`clientCreated` whether `new RealtimeClient` ran, `connectAttempted` whether
`connect()` was called, `disconnected` whether the handler called
`realtimeClient.disconnect()` on this control path, `sentUpstream` the messages
sent to the upstream connection, and `closeHandlerRegistered` whether a
`req.on('close', => disconnect)` listener was installed. -/
structure HttpSession where
  status : Option Nat
  ended : Bool
  clientCreated : Bool
  connectAttempted : Bool
  disconnected : Bool
  sentUpstream : List UpMsg
  closeHandlerRegistered : Bool
deriving DecidableEq

/-- Model of the `src/server.ts` `POST /speech-to-speech` handler's control
flow.  Note the handler performs no API-key check: `openaiKey` is passed to the
`RealtimeClient` constructor and `connect()` is always attempted once the
parameter validation passes.  The `Buffer.from(audio, 'base64')` call never
throws, so the `catch` returning 400 "Invalid audio encoding" is dead; the
empty-buffer check returns 400 after the upstream is already connected, without
calling `disconnect()`.  On the timeout the outer `catch` disconnects and sends
500.  On `speech.completed` the handler returns, leaving the response to the
event callbacks, and registers the `req.on('close')` disconnect listener. -/
def serverTsHandle (openaiKey : String) (req : SpeechRequest) (connectOk : Bool)
    (outcome : RaceOutcome) : HttpSession :=
  if falsy req.audio || falsy req.threadId || falsy req.assistantId then
    { status := some 400, ended := true, clientCreated := false, connectAttempted := false,
      disconnected := false, sentUpstream := [], closeHandlerRegistered := false }
  else if connectOk = false then
    { status := some 500, ended := true, clientCreated := true, connectAttempted := true,
      disconnected := true, sentUpstream := [], closeHandlerRegistered := false }
  else if (b64Decode (req.audio.getD "")).length = 0 then
    { status := some 400, ended := true, clientCreated := true, connectAttempted := true,
      disconnected := false, sentUpstream := [], closeHandlerRegistered := false }
  else
    match outcome with
    | RaceOutcome.completed =>
        { status := none, ended := false, clientCreated := true, connectAttempted := true,
          disconnected := false,
          sentUpstream := sendUserMessageContent
            (sendUserMessageContent [] [ContentItem.inputText "my name is christopher"])
            [ContentItem.inputAudio (req.audio.getD "") 16000 1 16],
          closeHandlerRegistered := true }
    | RaceOutcome.timedOut =>
        { status := some 500, ended := true, clientCreated := true, connectAttempted := true,
          disconnected := true,
          sentUpstream := sendUserMessageContent
            (sendUserMessageContent [] [ContentItem.inputText "my name is christopher"])
            [ContentItem.inputAudio (req.audio.getD "") 16000 1 16],
          closeHandlerRegistered := false }

/-- Model of `new Int16Array(ab)` over an `ArrayBuffer` with byte contents
`bytes`: views the whole buffer, throwing `RangeError` when its byte length is
not a multiple of 2. -/
def newInt16Array (bytes : List Nat) : Except String (List Int) :=
  if bytes.length % 2 = 0 then Except.ok (bytesToInt16 bytes)
  else Except.error "RangeError: byte length of Int16Array should be a multiple of 2"

/-- Contents of the `ArrayBuffer` backing Node's `Buffer.from(s, 'base64')`
result (for well-formed base64, whose padding-based size estimate equals the
decoded length): a payload under `Buffer.poolSize >>> 1` = 4096 bytes is
carved from the shared 8192-byte pool, so `.buffer` is the whole pool —
`pool` is its full contents, holding the decoded payload at some offset along
with unrelated data; a payload of 4096 bytes or more gets an exactly-sized
`ArrayBuffer` of its own. -/
def bufferBacking (pool : List Nat) (decoded : List Nat) : List Nat :=
  if decoded.length < 4096 then pool else decoded

/-- Body of the `try` block of `part_001`'s handler after parameter
validation: connect, decode the base64 audio, view the decoded buffer's
backing `ArrayBuffer` as `Int16Array` (`new Int16Array(audioBuffer.buffer)` —
which views the whole pool for small payloads and can throw only for
large odd ones), append the resulting samples upstream and create a
response. -/
def part001Try (pool : List Nat) (audio : String) (connectOk : Bool) :
    Except String HttpSession :=
  if connectOk = false then Except.error "connect failed"
  else
    match newInt16Array (bufferBacking pool (b64Decode audio)) with
    | Except.error e => Except.error e
    | Except.ok samples =>
        Except.ok
          { status := none, ended := false, clientCreated := true, connectAttempted := true,
            disconnected := false,
            sentUpstream := [UpMsg.appendAudio samples, UpMsg.createResponse],
            closeHandlerRegistered := true }

/-- Model of the `part_001` `POST /speech-to-speech` handler: parameter
validation, then the `try` body; any thrown error is caught, the upstream is
disconnected and (since `responseStarted` is still false) a 500 is sent.
`pool` is the contents of the shared allocation pool backing small decoded
buffers. -/
def part001Handle (pool : List Nat) (req : SpeechRequest) (connectOk : Bool) : HttpSession :=
  if falsy req.audio || falsy req.threadId || falsy req.assistantId then
    { status := some 400, ended := true, clientCreated := false, connectAttempted := false,
      disconnected := false, sentUpstream := [], closeHandlerRegistered := false }
  else
    match part001Try pool (req.audio.getD "") connectOk with
    | Except.ok s => s
    | Except.error _ =>
        { status := some 500, ended := true, clientCreated := true, connectAttempted := true,
          disconnected := true, sentUpstream := [], closeHandlerRegistered := false }

/-- Model of the `part_002` `POST /speech-to-speech` handler: parameter
validation, then an explicit API-key check (500 before the client is even
constructed), then connect; on success the decoded audio bytes are sent as one
`input_text` item.  On the inner `Promise.race` timeout the inner `catch` sends
a 500 but does not call `realtimeClient.disconnect()`; the handler then still
registers the `req.on('close')` listener. -/
def part002Handle (openaiKey : String) (req : SpeechRequest) (connectOk : Bool)
    (outcome : RaceOutcome) : HttpSession :=
  if falsy req.audio || falsy req.threadId || falsy req.assistantId then
    { status := some 400, ended := true, clientCreated := false, connectAttempted := false,
      disconnected := false, sentUpstream := [], closeHandlerRegistered := false }
  else if openaiKey == "" then
    { status := some 500, ended := true, clientCreated := false, connectAttempted := false,
      disconnected := false, sentUpstream := [], closeHandlerRegistered := false }
  else if connectOk = false then
    { status := some 500, ended := true, clientCreated := true, connectAttempted := true,
      disconnected := true, sentUpstream := [], closeHandlerRegistered := false }
  else if (req.audio.getD "").length = 0 then
    { status := some 400, ended := true, clientCreated := true, connectAttempted := true,
      disconnected := false, sentUpstream := [], closeHandlerRegistered := false }
  else
    match outcome with
    | RaceOutcome.completed =>
        { status := none, ended := false, clientCreated := true, connectAttempted := true,
          disconnected := false,
          sentUpstream := sendUserMessageContent []
            [ContentItem.inputTextBytes (b64Decode (req.audio.getD ""))],
          closeHandlerRegistered := true }
    | RaceOutcome.timedOut =>
        { status := some 500, ended := true, clientCreated := true, connectAttempted := true,
          disconnected := false,
          sentUpstream := sendUserMessageContent []
            [ContentItem.inputTextBytes (b64Decode (req.audio.getD ""))],
          closeHandlerRegistered := true }

/-- Observable outcome of `part_003`'s `wss.on('connection')` setup. -/
structure WsConn where
  errorsSent : List String
  closed : Bool
  clientCreated : Bool
  connectAttempted : Bool
deriving DecidableEq

/-- Model of the WebSocket connection setup (`part_003`): a missing (or empty)
`OPENAI_API_KEY` sends an error and closes the socket before creating the
client; a connect/updateSession failure sends an error and closes after the
attempt. -/
def wsOnConnection (apiKey : Option String) (connectOk : Bool) : WsConn :=
  if falsy apiKey then
    { errorsSent := ["OPENAI_API_KEY is not defined"], closed := true,
      clientCreated := false, connectAttempted := false }
  else if connectOk = false then
    { errorsSent := ["Failed to connect to Realtime API"], closed := true,
      clientCreated := true, connectAttempted := true }
  else
    { errorsSent := [], closed := false, clientCreated := true, connectAttempted := true }

/-- Per-connection state of the WebSocket relay: chunks appended upstream,
error messages sent to the client, and whether the socket was closed by the
message handler. -/
structure WsSession where
  forwarded : List (List Int)
  errors : List String
  closed : Bool
deriving DecidableEq

/-- An inbound WebSocket message: binary audio bytes or anything else. -/
inductive WsMsg
  | binary (bytes : List Nat)
  | nonBinary
deriving DecidableEq

/-- Model of `part_003`'s `ws.on('message')` handler (connected session).  For
a binary message it builds
`new Int16Array(message.buffer, message.byteOffset, message.byteLength / 2)`:
the fractional length of an odd-sized buffer is truncated by `ToIndex`, so the
last byte is silently dropped; the resulting samples are appended upstream.  A
non-binary message sends an error to the client and the session stays open. -/
def wsOnMessage (st : WsSession) (m : WsMsg) : WsSession :=
  match m with
  | WsMsg.binary bytes =>
      { st with forwarded := st.forwarded ++ [bytesToInt16 (bytes.take (2 * (bytes.length / 2)))] }
  | WsMsg.nonBinary =>
      { st with errors := st.errors ++ ["Expected binary data, received non-binary"] }

/-- State of the chunked HTTP response used by the WAV-encoding variants:
which headers/body writes happened and whether `res.end()` ran.
`writtenWav` records, per outbound message, the normalised float samples handed
to `WavEncoder.encode`. -/
structure ResStateWav where
  headersSent : Bool
  writableEnded : Bool
  headerWrites : Nat
  writtenWav : List (List Rat)
deriving DecidableEq

/-- Model of `src/server.ts`'s `sendAudioToClient`: a no-op once the response
has ended; otherwise it writes headers exactly when they were not yet sent,
writes one WAV-encoded buffer of the normalised samples, and ends the
response. -/
def sendAudioToClient (res : ResStateWav) (audio : List Int) : ResStateWav :=
  if res.writableEnded then res
  else
    { headersSent := true
      writableEnded := true
      headerWrites := if res.headersSent then res.headerWrites else res.headerWrites + 1
      writtenWav := res.writtenWav ++ [float32ChannelData audio] }

/-- Fresh chunked response (nothing sent yet). -/
def freshWav : ResStateWav :=
  { headersSent := false, writableEnded := false, headerWrites := 0, writtenWav := [] }

/-- One `conversation.updated` event's `event.item` as used by the handlers:
role, status, formatted transcript and formatted audio.  A present audio field
is always truthy in JS (a typed array is an object), hence `Option`. -/
structure ConvItem where
  role : String
  status : String
  transcript : Option String
  audio : Option (List Int)
deriving DecidableEq

/-- Gate of the audio-forwarding branch in `src/server.ts`'s
`conversation.updated` handler: assistant role, completed status, audio
present. -/
def isCompletedAssistantAudio (e : ConvItem) : Bool :=
  e.role == "assistant" && (e.status == "completed" && e.audio.isSome)

/-- Response-state part of one `conversation.updated` callback of
`src/server.ts`: forward the audio when the gate holds, otherwise leave the
response untouched. -/
def convStepRes (res : ResStateWav) (e : ConvItem) : ResStateWav :=
  if isCompletedAssistantAudio e then sendAudioToClient res (e.audio.getD [])
  else res

/-- Transcription-flag part of the same callback: `transcriptionReceived`
becomes true on the first assistant event with a truthy transcript. -/
def convStepTr (tr : Bool) (e : ConvItem) : Bool :=
  if e.role == "assistant" then
    (if !(falsy e.transcript) && !tr then true else tr)
  else tr

/-- Model of the `conversation.updated` callback of `src/server.ts`: the event
updates the response state and the `transcriptionReceived` flag independently
of one another. -/
def onConversationUpdated (st : ResStateWav × Bool) (e : ConvItem) : ResStateWav × Bool :=
  (convStepRes st.1 e, convStepTr st.2 e)

/-- Run a session's stream of `conversation.updated` events from a fresh
response and a clear `transcriptionReceived` flag. -/
def runConv (evs : List ConvItem) : ResStateWav × Bool :=
  List.foldl onConversationUpdated (freshWav, false) evs

/-- State of the chunked HTTP response of the raw-PCM variant (`part_001`):
its `sendAudioToClient` writes a chunk per call and never ends the response. -/
structure ResStatePcm where
  headersSent : Bool
  writableEnded : Bool
  headerWrites : Nat
  written : List (List Int)
deriving DecidableEq

/-- Model of `part_001`'s `sendAudioToClient`: a no-op once the response has
ended; otherwise it writes headers exactly when they were not yet sent and
writes the raw Int16 buffer as one chunk (no `res.end()`). -/
def sendAudioToClientP1 (res : ResStatePcm) (audio : List Int) : ResStatePcm :=
  if res.writableEnded then res
  else
    { headersSent := true
      writableEnded := false
      headerWrites := if res.headersSent then res.headerWrites else res.headerWrites + 1
      written := res.written ++ [audio] }

/-- Fresh chunked response for the raw-PCM variant. -/
def freshPcm : ResStatePcm :=
  { headersSent := false, writableEnded := false, headerWrites := 0, written := [] }

/-- A `sendAudioToClient` call after `res.end()` is a no-op. -/
theorem sendAudioToClient_ended (res : ResStateWav) (audio : List Int)
    (h : res.writableEnded = true) : sendAudioToClient res audio = res := by
  simp [sendAudioToClient, h]

/-- An event arriving after `res.end()` leaves the response unchanged. -/
theorem convStepRes_ended (res : ResStateWav) (e : ConvItem)
    (h : res.writableEnded = true) : convStepRes res e = res := by
  unfold convStepRes
  split
  · exact sendAudioToClient_ended _ _ h
  · rfl

/-- After the response has ended, no further event changes it. -/
theorem foldConvRes_ended (evs : List ConvItem) :
    ∀ res : ResStateWav, res.writableEnded = true →
      List.foldl convStepRes res evs = res := by
  induction evs with
  | nil => intro res _; rfl
  | cons e rest ih =>
      intro res h
      rw [List.foldl_cons, convStepRes_ended res e h]
      exact ih res h

/-- On a live response, `sendAudioToClient` writes exactly one WAV buffer of
the normalised samples and ends the response. -/
theorem sendAudioToClient_live (res : ResStateWav) (audio : List Int)
    (h : res.writableEnded = false) :
    (sendAudioToClient res audio).writtenWav = res.writtenWav ++ [float32ChannelData audio] ∧
    (sendAudioToClient res audio).writableEnded = true := by
  simp [sendAudioToClient, h]

/-- Number of WAV buffers written by a run of `conversation.updated` events on
a live response: one if some event passes the forwarding gate, none
otherwise. -/
theorem foldConvRes_count (evs : List ConvItem) :
    ∀ res : ResStateWav, res.writableEnded = false →
      (List.foldl convStepRes res evs).writtenWav.length
        = res.writtenWav.length + (if evs.any isCompletedAssistantAudio then 1 else 0) := by
  induction evs with
  | nil => intro res _; simp
  | cons e rest ih =>
      intro res h
      rw [List.foldl_cons]
      by_cases hq : isCompletedAssistantAudio e = true
      · have hstep : convStepRes res e = sendAudioToClient res (e.audio.getD []) := by
          simp [convStepRes, hq]
        obtain ⟨hw, he⟩ := sendAudioToClient_live res (e.audio.getD []) h
        rw [hstep, foldConvRes_ended rest _ he, hw]
        simp [hq]
      · have hq' : isCompletedAssistantAudio e = false := by simpa using hq
        have hstep : convStepRes res e = res := by simp [convStepRes, hq']
        rw [hstep, ih res h]
        simp [hq']

/-- The event callback updates the response state and the transcription flag
independently, so a fold splits componentwise. -/
theorem foldl_conv_split (evs : List ConvItem) :
    ∀ (r : ResStateWav) (t : Bool),
      List.foldl onConversationUpdated (r, t) evs
        = (List.foldl convStepRes r evs, List.foldl convStepTr t evs) := by
  induction evs with
  | nil => intro r t; rfl
  | cons e rest ih => intro r t; rw [List.foldl_cons]; exact ih _ _

/-- Header-write invariant for the WAV sender: writes stay at most one and are
zero until the headers are sent. -/
theorem sendAudioToClient_header (res : ResStateWav) (audio : List Int)
    (h1 : res.headerWrites ≤ 1) (h2 : res.headersSent = false → res.headerWrites = 0) :
    (sendAudioToClient res audio).headerWrites ≤ 1 ∧
    ((sendAudioToClient res audio).headersSent = false →
      (sendAudioToClient res audio).headerWrites = 0) := by
  by_cases he : res.writableEnded
  · rw [sendAudioToClient_ended res audio (by simpa using he)]
    exact ⟨h1, h2⟩
  · by_cases hs : res.headersSent
    · simp [sendAudioToClient, he, hs, h1]
    · have h0 := h2 (by simpa using hs)
      simp [sendAudioToClient, he, hs, h0]

/-- Header-write invariant is preserved across a stream of events. -/
theorem foldConvRes_header (evs : List ConvItem) :
    ∀ res : ResStateWav, res.headerWrites ≤ 1 →
      (res.headersSent = false → res.headerWrites = 0) →
      (List.foldl convStepRes res evs).headerWrites ≤ 1 := by
  induction evs with
  | nil => intro res h1 _; simpa using h1
  | cons e rest ih =>
      intro res h1 h2
      rw [List.foldl_cons]
      unfold convStepRes
      split
      · obtain ⟨g1, g2⟩ := sendAudioToClient_header res (e.audio.getD []) h1 h2
        exact ih _ g1 g2
      · exact ih res h1 h2

/-- Header-write invariant for the raw-PCM sender of `part_001`. -/
theorem sendAudioToClientP1_header (res : ResStatePcm) (audio : List Int)
    (h1 : res.headerWrites ≤ 1) (h2 : res.headersSent = false → res.headerWrites = 0) :
    (sendAudioToClientP1 res audio).headerWrites ≤ 1 ∧
    ((sendAudioToClientP1 res audio).headersSent = false →
      (sendAudioToClientP1 res audio).headerWrites = 0) := by
  by_cases he : res.writableEnded
  · have hnoop : sendAudioToClientP1 res audio = res := by
      simp [sendAudioToClientP1, he]
    rw [hnoop]
    exact ⟨h1, h2⟩
  · by_cases hs : res.headersSent
    · simp [sendAudioToClientP1, he, hs, h1]
    · have h0 := h2 (by simpa using hs)
      simp [sendAudioToClientP1, he, hs, h0]

/-- Header-write invariant is preserved across any sequence of raw-PCM chunk
writes. -/
theorem foldP1_header (chunks : List (List Int)) :
    ∀ res : ResStatePcm, res.headerWrites ≤ 1 →
      (res.headersSent = false → res.headerWrites = 0) →
      (List.foldl sendAudioToClientP1 res chunks).headerWrites ≤ 1 := by
  induction chunks with
  | nil => intro res h1 _; simpa using h1
  | cons c rest ih =>
      intro res h1 h2
      rw [List.foldl_cons]
      obtain ⟨g1, g2⟩ := sendAudioToClientP1_header res c h1 h2
      exact ih _ g1 g2

/-! Claim theorems. -/

/-- C1 counterexample: the claim says every relay variant normalises PCM by
dividing by 32768, but the WebSocket variant (`part_003`) divides by 32767, so
on the payload `[0, 16384, -16384, 32767]` its outbound samples differ from
the 32768 convention. -/
theorem c1_counterexample :
    float32Data [0, 16384, -16384, 32767] ≠ float32ChannelData [0, 16384, -16384, 32767] := by
  simp only [float32Data, float32ChannelData, List.map]
  intro h
  have h2 := (List.cons.injEq _ _ _ _).mp h
  have h3 := (List.cons.injEq _ _ _ _).mp h2.2
  norm_num at h3

/-- C1 amended: the WAV-encoding variants (`src/server.ts` and `part_002`)
divide each sample by 32768, so the payload `[0, 16384, -16384, 32767]` is
normalised to `[0, 1/2, -1/2, 32767/32768]`; the WebSocket variant instead
divides by 32767, mapping the same payload to
`[0, 16384/32767, -16384/32767, 1]` — there is no single convention across all
variants. -/
theorem c1_amended_thm :
    float32ChannelData [0, 16384, -16384, 32767] = [0, 1/2, -1/2, 32767/32768] ∧
    sendAudioToClientWs [0, 16384, -16384, 32767] = [0, 16384/32767, -16384/32767, 1] := by
  constructor <;> norm_num [float32ChannelData, sendAudioToClientWs, float32Data]

/-- C2 counterexample: the claim says a chunk is forwarded only after
validating it decodes to a whole number of 16-bit samples, and that a
malformed chunk produces a `BadFrame` error.  The WebSocket handler performs
no such validation: the odd-length chunk `[0, 0, 7]` is forwarded with its
last byte silently dropped and no error of any kind is reported. -/
theorem c2_counterexample :
    (wsOnMessage { forwarded := [], errors := [], closed := false }
        (WsMsg.binary [0, 0, 7])).forwarded = [[0]] ∧
    (wsOnMessage { forwarded := [], errors := [], closed := false }
        (WsMsg.binary [0, 0, 7])).errors = [] := by
  decide

/-- C2 amended: an even-length binary chunk is forwarded upstream unmodified
(as its full int16 sample sequence) and produces no error; an odd-length
chunk is forwarded with the last byte silently dropped and produces no
`BadFrame` error; a non-binary message produces an error message to the
client without closing the session (and nothing is forwarded for it). -/
theorem c2_amended_thm (st : WsSession) (bytes oddBytes : List Nat)
    (heven : bytes.length % 2 = 0) (hodd : oddBytes.length % 2 = 1) :
    (wsOnMessage st (WsMsg.binary bytes)).forwarded = st.forwarded ++ [bytesToInt16 bytes] ∧
    (wsOnMessage st (WsMsg.binary bytes)).errors = st.errors ∧
    (wsOnMessage st (WsMsg.binary oddBytes)).errors = st.errors ∧
    (wsOnMessage st (WsMsg.binary oddBytes)).forwarded
      = st.forwarded ++ [bytesToInt16 (oddBytes.take (oddBytes.length - 1))] ∧
    (wsOnMessage st WsMsg.nonBinary).errors
      = st.errors ++ ["Expected binary data, received non-binary"] ∧
    (wsOnMessage st WsMsg.nonBinary).closed = st.closed ∧
    (wsOnMessage st WsMsg.nonBinary).forwarded = st.forwarded := by
  have htake : 2 * (bytes.length / 2) = bytes.length := by omega
  have htr : 2 * (oddBytes.length / 2) = oddBytes.length - 1 := by omega
  simp [wsOnMessage, htake, htr]

/-- C2 witness: the amended theorem evaluated at a two-byte chunk, a one-byte
chunk and a non-binary message on a fresh session. -/
theorem c2_amended_witness :
    (wsOnMessage ⟨[], [], false⟩ (WsMsg.binary [1, 2])).forwarded
      = [] ++ [bytesToInt16 [1, 2]] ∧
    (wsOnMessage ⟨[], [], false⟩ (WsMsg.binary [1, 2])).errors = [] ∧
    (wsOnMessage ⟨[], [], false⟩ (WsMsg.binary [9])).errors = [] ∧
    (wsOnMessage ⟨[], [], false⟩ (WsMsg.binary [9])).forwarded
      = [] ++ [bytesToInt16 (([9] : List Nat).take (([9] : List Nat).length - 1))] ∧
    (wsOnMessage ⟨[], [], false⟩ WsMsg.nonBinary).errors
      = [] ++ ["Expected binary data, received non-binary"] ∧
    (wsOnMessage ⟨[], [], false⟩ WsMsg.nonBinary).closed = false ∧
    (wsOnMessage ⟨[], [], false⟩ WsMsg.nonBinary).forwarded = [] :=
  c2_amended_thm ⟨[], [], false⟩ [1, 2] [9] (by decide) (by decide)

/-- C3 (code bug): in the `part_002` variant, a session whose upstream never
emits `speech.completed` within the 30 s window exits through the inner
`catch` with a 500 response but without calling `realtimeClient.disconnect()`
— the upstream handle is leaked on the timeout path, contrary to the claim
(and to `src/server.ts`'s own timeout path, which does disconnect).
`src/server.ts` has a further leaking exit path: when the base64 audio decodes
to an empty buffer the handler returns 400 after `connect()` without
disconnecting. -/
theorem c3_part002_timeout_leak :
    (part002Handle "key" { audio := some "QUFB", threadId := some "t", assistantId := some "a" }
        true RaceOutcome.timedOut).status = some 500 ∧
    (part002Handle "key" { audio := some "QUFB", threadId := some "t", assistantId := some "a" }
        true RaceOutcome.timedOut).connectAttempted = true ∧
    (part002Handle "key" { audio := some "QUFB", threadId := some "t", assistantId := some "a" }
        true RaceOutcome.timedOut).disconnected = false ∧
    (serverTsHandle "key" { audio := some "====", threadId := some "t", assistantId := some "a" }
        true RaceOutcome.completed).status = some 400 ∧
    (serverTsHandle "key" { audio := some "====", threadId := some "t", assistantId := some "a" }
        true RaceOutcome.completed).connectAttempted = true ∧
    (serverTsHandle "key" { audio := some "====", threadId := some "t", assistantId := some "a" }
        true RaceOutcome.completed).disconnected = false := by
  decide

/-- C4: in all three HTTP variants, a request missing the audio payload, the
thread id or the assistant id is answered with status 400, no
`RealtimeClient` is constructed, no connect is attempted and nothing is sent
upstream. -/
theorem c4_missing_params (k : String) (pool : List Nat) (req : SpeechRequest)
    (connectOk : Bool) (outcome : RaceOutcome)
    (h : req.audio = none ∨ req.threadId = none ∨ req.assistantId = none) :
    ((serverTsHandle k req connectOk outcome).status = some 400 ∧
      (serverTsHandle k req connectOk outcome).clientCreated = false ∧
      (serverTsHandle k req connectOk outcome).connectAttempted = false ∧
      (serverTsHandle k req connectOk outcome).sentUpstream = []) ∧
    ((part001Handle pool req connectOk).status = some 400 ∧
      (part001Handle pool req connectOk).clientCreated = false ∧
      (part001Handle pool req connectOk).connectAttempted = false ∧
      (part001Handle pool req connectOk).sentUpstream = []) ∧
    ((part002Handle k req connectOk outcome).status = some 400 ∧
      (part002Handle k req connectOk outcome).clientCreated = false ∧
      (part002Handle k req connectOk outcome).connectAttempted = false ∧
      (part002Handle k req connectOk outcome).sentUpstream = []) := by
  have hf : (falsy req.audio || falsy req.threadId || falsy req.assistantId) = true := by
    rcases h with h | h | h <;> simp [falsy, h]
  simp [serverTsHandle, part001Handle, part002Handle, hf]

/-- C4 witness: a request with no audio field is rejected by all three
variants without reaching upstream. -/
theorem c4_missing_params_witness :
    ((serverTsHandle "k" { audio := none, threadId := some "t", assistantId := some "a" }
        true RaceOutcome.completed).status = some 400 ∧
      (serverTsHandle "k" { audio := none, threadId := some "t", assistantId := some "a" }
        true RaceOutcome.completed).clientCreated = false ∧
      (serverTsHandle "k" { audio := none, threadId := some "t", assistantId := some "a" }
        true RaceOutcome.completed).connectAttempted = false ∧
      (serverTsHandle "k" { audio := none, threadId := some "t", assistantId := some "a" }
        true RaceOutcome.completed).sentUpstream = []) ∧
    ((part001Handle [] { audio := none, threadId := some "t", assistantId := some "a" }
        true).status = some 400 ∧
      (part001Handle [] { audio := none, threadId := some "t", assistantId := some "a" }
        true).clientCreated = false ∧
      (part001Handle [] { audio := none, threadId := some "t", assistantId := some "a" }
        true).connectAttempted = false ∧
      (part001Handle [] { audio := none, threadId := some "t", assistantId := some "a" }
        true).sentUpstream = []) ∧
    ((part002Handle "k" { audio := none, threadId := some "t", assistantId := some "a" }
        true RaceOutcome.completed).status = some 400 ∧
      (part002Handle "k" { audio := none, threadId := some "t", assistantId := some "a" }
        true RaceOutcome.completed).clientCreated = false ∧
      (part002Handle "k" { audio := none, threadId := some "t", assistantId := some "a" }
        true RaceOutcome.completed).connectAttempted = false ∧
      (part002Handle "k" { audio := none, threadId := some "t", assistantId := some "a" }
        true RaceOutcome.completed).sentUpstream = []) :=
  c4_missing_params "k" [] { audio := none, threadId := some "t", assistantId := some "a" }
    true RaceOutcome.completed (Or.inl rfl)

/-- Evaluation of the `part_001` handler on a valid request whose audio
decodes to fewer than 4096 bytes: the decoded buffer is pool-backed, the
`Int16Array` view covers the whole even-sized pool and never throws, and the
handler appends the pool's samples upstream with no status set. -/
theorem part001_pooled_eval (pool : List Nat) (s t a : String)
    (hf : (falsy (some s) || falsy (some t) || falsy (some a)) = false)
    (hsm : (b64Decode s).length < 4096)
    (hpe : pool.length % 2 = 0) :
    part001Handle pool { audio := some s, threadId := some t, assistantId := some a } true
      = { status := none, ended := false, clientCreated := true, connectAttempted := true,
          disconnected := false,
          sentUpstream := [UpMsg.appendAudio (bytesToInt16 pool), UpMsg.createResponse],
          closeHandlerRegistered := true } := by
  simp [part001Handle, part001Try, newInt16Array, bufferBacking, hf, hsm, hpe]

/-- Evaluation of the `part_001` handler on a valid request whose audio
decodes to an odd number of at least 4096 bytes: the buffer is exactly sized,
the `Int16Array` view throws `RangeError`, the catch disconnects and sends
500. -/
theorem part001_large_odd_eval (pool : List Nat) (s t a : String)
    (hf : (falsy (some s) || falsy (some t) || falsy (some a)) = false)
    (hlt : ¬(b64Decode s).length < 4096)
    (hlo : ¬(b64Decode s).length % 2 = 0) :
    part001Handle pool { audio := some s, threadId := some t, assistantId := some a } true
      = { status := some 500, ended := true, clientCreated := true, connectAttempted := true,
          disconnected := true, sentUpstream := [], closeHandlerRegistered := false } := by
  simp [part001Handle, part001Try, newInt16Array, bufferBacking, hf, hlt, hlo]

/-- Filtering the all-A character list through the base64 alphabet keeps every
character, each with value 0. -/
theorem filterMap_b64Val_replicateA (n : Nat) :
    (List.replicate n (Char.ofNat 65)).filterMap b64Val = List.replicate n 0 := by
  have hA : b64Val (Char.ofNat 65) = some 0 := by decide
  induction n with
  | zero => rfl
  | succ k ih => simp [List.replicate_succ, hA, ih]

/-- Length of the base64 group decoding of `4k + 3` zero values: `3k + 2`
bytes (the trailing triple contributes two). -/
theorem b64Groups_replicate_length (k : Nat) :
    (b64Groups (List.replicate (4 * k + 3) 0)).length = 3 * k + 2 := by
  induction k with
  | zero => rfl
  | succ n ih =>
      have h4 : 4 * (n + 1) + 3 = (4 * n + 3) + 1 + 1 + 1 + 1 := by ring
      rw [h4, List.replicate_succ, List.replicate_succ, List.replicate_succ,
        List.replicate_succ]
      simp only [b64Groups, List.length_cons, ih]
      omega

/-- The 5463-character all-A base64 string is not falsy (non-empty). -/
theorem bigA_not_falsy :
    falsy (some (String.mk (List.replicate 5463 (Char.ofNat 65)))) = false := by
  show (String.mk (List.replicate 5463 (Char.ofNat 65)) == "") = false
  rw [beq_eq_false_iff_ne]
  intro h
  have h2 : List.replicate 5463 (Char.ofNat 65) = ([] : List Char) :=
    congrArg String.data h
  have h3 := congrArg List.length h2
  rw [List.length_replicate, List.length_nil] at h3
  exact absurd h3 (by decide)

/-- The 5463-character all-A base64 string decodes to 4097 bytes. -/
theorem bigA_decode_length :
    (b64Decode (String.mk (List.replicate 5463 (Char.ofNat 65)))).length = 4097 := by
  have h1 : (String.mk (List.replicate 5463 (Char.ofNat 65))).data
      = List.replicate 5463 (Char.ofNat 65) := rfl
  rw [b64Decode, h1, filterMap_b64Val_replicateA]
  have h2 : (5463 : Nat) = 4 * 1365 + 3 := by norm_num
  rw [h2, b64Groups_replicate_length]

/-- C5 counterexample: the claim says an odd-length decoded payload yields a
`BadFrame`/400 error.  The base64 input `"AA"` decodes to a single byte, which
Node backs with the shared 8192-byte pool; `new Int16Array(audioBuffer.buffer)`
views the whole even-sized pool, so `part_001` raises no error at all — it
sets no status (no 400) and forwards the pool's 4096 samples (garbage
included) upstream. -/
theorem c5_counterexample :
    (b64Decode "AA").length % 2 = 1 ∧
    (part001Handle (List.replicate 8192 0)
        { audio := some "AA", threadId := some "t", assistantId := some "a" }
        true).status = none ∧
    (part001Handle (List.replicate 8192 0)
        { audio := some "AA", threadId := some "t", assistantId := some "a" }
        true).status ≠ some 400 ∧
    (part001Handle (List.replicate 8192 0)
        { audio := some "AA", threadId := some "t", assistantId := some "a" }
        true).sentUpstream
      = [UpMsg.appendAudio (bytesToInt16 (List.replicate 8192 0)), UpMsg.createResponse] := by
  have hf : (falsy (some "AA") || falsy (some "t") || falsy (some "a")) = false := by decide
  have hsm : (b64Decode "AA").length < 4096 := by decide
  have hpe : (List.replicate 8192 (0 : Nat)).length % 2 = 0 := by
    rw [List.length_replicate]
  have h := part001_pooled_eval (List.replicate 8192 0) "AA" "t" "a" hf hsm hpe
  refine ⟨by decide, ?_, ?_, ?_⟩
  · rw [h]
  · rw [h]
    simp
  · rw [h]

/-- C5 amended: an odd-length decoded payload never crashes a handler, but it
never yields a 400 either.  In `part_001`, a decoded payload of 4096 bytes or
more is backed by an exactly-sized `ArrayBuffer`, so the `Int16Array` view
throws a `RangeError` that the handler catches, answering 500 with the
upstream disconnected and nothing sent; a decoded payload under 4096 bytes is
backed by the even-sized 8192-byte pool, so the view never throws and the
handler forwards the pool's 4096 samples (unrelated pool data included)
upstream with no error status at all.  The WebSocket handler forwards the odd
chunk truncated by one byte with no error. -/
theorem c5_amended_thm (sSmall sLarge t a : String) (pool : List Nat) (st : WsSession)
    (bytes : List Nat)
    (hsm : falsy (some sSmall) = false) (hlg : falsy (some sLarge) = false)
    (ht : falsy (some t) = false) (ha : falsy (some a) = false)
    (hoddSm : (b64Decode sSmall).length % 2 = 1) (hsmall : (b64Decode sSmall).length < 4096)
    (hoddLg : (b64Decode sLarge).length % 2 = 1) (hlarge : 4096 ≤ (b64Decode sLarge).length)
    (hpool : pool.length = 8192)
    (hbytes : bytes.length % 2 = 1) :
    (part001Handle pool { audio := some sLarge, threadId := some t, assistantId := some a }
        true).status = some 500 ∧
    (part001Handle pool { audio := some sLarge, threadId := some t, assistantId := some a }
        true).status ≠ some 400 ∧
    (part001Handle pool { audio := some sLarge, threadId := some t, assistantId := some a }
        true).disconnected = true ∧
    (part001Handle pool { audio := some sLarge, threadId := some t, assistantId := some a }
        true).sentUpstream = [] ∧
    (part001Handle pool { audio := some sSmall, threadId := some t, assistantId := some a }
        true).status = none ∧
    (part001Handle pool { audio := some sSmall, threadId := some t, assistantId := some a }
        true).status ≠ some 400 ∧
    (part001Handle pool { audio := some sSmall, threadId := some t, assistantId := some a }
        true).sentUpstream
      = [UpMsg.appendAudio (bytesToInt16 pool), UpMsg.createResponse] ∧
    (wsOnMessage st (WsMsg.binary bytes)).errors = st.errors ∧
    (wsOnMessage st (WsMsg.binary bytes)).forwarded
      = st.forwarded ++ [bytesToInt16 (bytes.take (bytes.length - 1))] := by
  have hfL : (falsy (some sLarge) || falsy (some t) || falsy (some a)) = false := by
    simp [hlg, ht, ha]
  have hfS : (falsy (some sSmall) || falsy (some t) || falsy (some a)) = false := by
    simp [hsm, ht, ha]
  have hlt : ¬(b64Decode sLarge).length < 4096 := by omega
  have hlo : ¬(b64Decode sLarge).length % 2 = 0 := by omega
  have hpe : pool.length % 2 = 0 := by omega
  have htr : 2 * (bytes.length / 2) = bytes.length - 1 := by omega
  have hL := part001_large_odd_eval pool sLarge t a hfL hlt hlo
  have hS := part001_pooled_eval pool sSmall t a hfS hsmall hpe
  rw [hL, hS]
  simp [wsOnMessage, htr]

/-- C5 witness: the amended theorem at the one-byte payload `"AA"` (pooled
regime, pool of 8192 zero bytes), the 5463-character all-A base64 payload
decoding to 4097 bytes (exact-buffer regime), and the one-byte WebSocket
chunk `[7]`. -/
theorem c5_amended_witness :
    (part001Handle (List.replicate 8192 0)
        { audio := some (String.mk (List.replicate 5463 (Char.ofNat 65))),
          threadId := some "t", assistantId := some "a" } true).status = some 500 ∧
    (part001Handle (List.replicate 8192 0)
        { audio := some (String.mk (List.replicate 5463 (Char.ofNat 65))),
          threadId := some "t", assistantId := some "a" } true).status ≠ some 400 ∧
    (part001Handle (List.replicate 8192 0)
        { audio := some (String.mk (List.replicate 5463 (Char.ofNat 65))),
          threadId := some "t", assistantId := some "a" } true).disconnected = true ∧
    (part001Handle (List.replicate 8192 0)
        { audio := some (String.mk (List.replicate 5463 (Char.ofNat 65))),
          threadId := some "t", assistantId := some "a" } true).sentUpstream = [] ∧
    (part001Handle (List.replicate 8192 0)
        { audio := some "AA", threadId := some "t", assistantId := some "a" }
        true).status = none ∧
    (part001Handle (List.replicate 8192 0)
        { audio := some "AA", threadId := some "t", assistantId := some "a" }
        true).status ≠ some 400 ∧
    (part001Handle (List.replicate 8192 0)
        { audio := some "AA", threadId := some "t", assistantId := some "a" }
        true).sentUpstream
      = [UpMsg.appendAudio (bytesToInt16 (List.replicate 8192 0)), UpMsg.createResponse] ∧
    (wsOnMessage ⟨[], [], false⟩ (WsMsg.binary [7])).errors = [] ∧
    (wsOnMessage ⟨[], [], false⟩ (WsMsg.binary [7])).forwarded
      = [] ++ [bytesToInt16 (([7] : List Nat).take (([7] : List Nat).length - 1))] :=
  c5_amended_thm "AA" (String.mk (List.replicate 5463 (Char.ofNat 65))) "t" "a"
    (List.replicate 8192 0) ⟨[], [], false⟩ [7]
    (by decide) bigA_not_falsy (by decide) (by decide)
    (by decide) (by decide)
    (by rw [bigA_decode_length]) (by rw [bigA_decode_length]; decide)
    (by rw [List.length_replicate]) (by decide)

/-- C6 counterexample: the claim says a session with no upstream API key fails
fast before any attempt to connect.  The `src/server.ts` variant performs no
key check at all: with the empty key it still constructs the client and
attempts the upstream connection. -/
theorem c6_counterexample :
    (serverTsHandle "" { audio := some "QUFB", threadId := some "t", assistantId := some "a" }
        false RaceOutcome.completed).clientCreated = true ∧
    (serverTsHandle "" { audio := some "QUFB", threadId := some "t", assistantId := some "a" }
        false RaceOutcome.completed).connectAttempted = true ∧
    (serverTsHandle "" { audio := some "QUFB", threadId := some "t", assistantId := some "a" }
        false RaceOutcome.completed).status = some 500 := by
  decide

/-- C6 amended: the `part_002` HTTP variant and the WebSocket variant fail
fast on a missing API key — a configuration error (500 / an error message plus
socket close) before any client is constructed or connect attempted, with
nothing sent upstream; the `src/server.ts` variant has no such check and
attempts the connection regardless. -/
theorem c6_amended_thm (req : SpeechRequest) (connectOk : Bool) (outcome : RaceOutcome)
    (ha : falsy req.audio = false) (ht : falsy req.threadId = false)
    (hA : falsy req.assistantId = false) :
    (part002Handle "" req connectOk outcome).status = some 500 ∧
    (part002Handle "" req connectOk outcome).clientCreated = false ∧
    (part002Handle "" req connectOk outcome).connectAttempted = false ∧
    (part002Handle "" req connectOk outcome).sentUpstream = [] ∧
    (wsOnConnection none connectOk).clientCreated = false ∧
    (wsOnConnection none connectOk).connectAttempted = false ∧
    (wsOnConnection none connectOk).closed = true ∧
    (wsOnConnection none connectOk).errorsSent = ["OPENAI_API_KEY is not defined"] := by
  have hnone : falsy none = true := rfl
  simp [part002Handle, wsOnConnection, ha, ht, hA, hnone]

/-- C6 witness: the amended theorem at a well-formed request with the API key
absent from the environment. -/
theorem c6_amended_witness :
    (part002Handle "" { audio := some "QUFB", threadId := some "t", assistantId := some "a" }
        true RaceOutcome.completed).status = some 500 ∧
    (part002Handle "" { audio := some "QUFB", threadId := some "t", assistantId := some "a" }
        true RaceOutcome.completed).clientCreated = false ∧
    (part002Handle "" { audio := some "QUFB", threadId := some "t", assistantId := some "a" }
        true RaceOutcome.completed).connectAttempted = false ∧
    (part002Handle "" { audio := some "QUFB", threadId := some "t", assistantId := some "a" }
        true RaceOutcome.completed).sentUpstream = [] ∧
    (wsOnConnection none true).clientCreated = false ∧
    (wsOnConnection none true).connectAttempted = false ∧
    (wsOnConnection none true).closed = true ∧
    (wsOnConnection none true).errorsSent = ["OPENAI_API_KEY is not defined"] :=
  c6_amended_thm { audio := some "QUFB", threadId := some "t", assistantId := some "a" }
    true RaceOutcome.completed (by decide) (by decide) (by decide)

/-- C7 counterexample: the claim says each completed-utterance event produces
its own WAV message.  In `src/server.ts`, `sendAudioToClient` ends the
response after the first WAV buffer, so two completed assistant events with
audio produce one outbound message, not two. -/
theorem c7_counterexample :
    ((runConv [{ role := "assistant", status := "completed", transcript := none,
                  audio := some [1, 2] },
                { role := "assistant", status := "completed", transcript := none,
                  audio := some [1, 2] }]).1.writtenWav).length = 1 ∧
    ((runConv [{ role := "assistant", status := "completed", transcript := none,
                  audio := some [1, 2] },
                { role := "assistant", status := "completed", transcript := none,
                  audio := some [1, 2] }]).1.writtenWav).length ≠ 2 := by
  constructor
  · rfl
  · decide

/-- C7 amended: a session produces exactly one outbound WAV message in total —
the first completed assistant event carrying audio produces it and ends the
response, and every later event produces nothing; a session with no such event
produces no WAV message. -/
theorem c7_amended_thm (evs : List ConvItem) :
    ((runConv evs).1.writtenWav).length
      = (if evs.any isCompletedAssistantAudio then 1 else 0) := by
  have h := foldl_conv_split evs freshWav false
  rw [runConv, h]
  simpa [freshWav] using foldConvRes_count evs freshWav rfl

/-- C8: in both the raw-PCM streaming variant (`part_001`) and the
WAV-encoding variant (`src/server.ts`), response headers are written at most
once per session no matter how many audio chunks or completed events occur;
later send attempts skip `writeHead` (a no-op, not an error). -/
theorem c8_headers_once (chunks : List (List Int)) (evs : List ConvItem) :
    (List.foldl sendAudioToClientP1 freshPcm chunks).headerWrites ≤ 1 ∧
    ((runConv evs).1).headerWrites ≤ 1 := by
  constructor
  · exact foldP1_header chunks freshPcm (by simp [freshPcm]) (fun _ => rfl)
  · have h := foldl_conv_split evs freshWav false
    rw [runConv, h]
    exact foldConvRes_header evs freshWav (by simp [freshWav]) (fun _ => rfl)

/-- C10: every request to the `src/server.ts` variant that passes input
validation (all parameters present, audio decoding to a non-empty buffer),
with the upstream connection established, sends upstream one `input_text`
conversation item with the fixed literal `my name is christopher` followed by
`createResponse`, before the client's audio item is sent — regardless of the
request's content. -/
theorem c10_fixed_text_first (k : String) (req : SpeechRequest) (outcome : RaceOutcome)
    (ha : falsy req.audio = false) (ht : falsy req.threadId = false)
    (hA : falsy req.assistantId = false)
    (hd : ¬(b64Decode (req.audio.getD "")).length = 0) :
    (serverTsHandle k req true outcome).sentUpstream =
      [UpMsg.itemCreate [ContentItem.inputText "my name is christopher"],
        UpMsg.createResponse,
        UpMsg.itemCreate [ContentItem.inputAudio (req.audio.getD "") 16000 1 16],
        UpMsg.createResponse] := by
  cases outcome <;>
    simp [serverTsHandle, ha, ht, hA, hd, sendUserMessageContent]

/-- C10 witness: a concrete valid request whose audio decodes to three bytes
sends the fixed text item, a response trigger, then the audio item. -/
theorem c10_fixed_text_first_witness :
    (serverTsHandle "k" { audio := some "QUFB", threadId := some "t", assistantId := some "a" }
        true RaceOutcome.completed).sentUpstream =
      [UpMsg.itemCreate [ContentItem.inputText "my name is christopher"],
        UpMsg.createResponse,
        UpMsg.itemCreate [ContentItem.inputAudio "QUFB" 16000 1 16],
        UpMsg.createResponse] :=
  c10_fixed_text_first "k" { audio := some "QUFB", threadId := some "t", assistantId := some "a" }
    RaceOutcome.completed (by decide) (by decide) (by decide) (by decide)
